import Mathlib

/-!
Verification development for the Bluesky identity-mapping adapter
(`src/lib/api/bluesky/adapter.ts`): a shallow embedding of the handle
derivation, the handle-to-reference caches, the authentication flow, and
the cache-dependent operations of the adapter, together with theorems
about the testable properties stated by the spec.

Modelling conventions:
* JavaScript 32-bit integer coercion (`x & x`, `<<`) is modelled by
  `jsToInt32`; `Math.abs` by `Int.natAbs`; `charCodeAt` by `Char.toNat`
  (identical for strings of BMP characters).
* The remote `BskyAgent` is an oracle (`Agent`) fixing the outcome of each
  remote call; operations return the result, the updated client state and
  the list of remote calls issued, in order.
* JavaScript string/number truthiness (`if (s)`) is modelled explicitly:
  a string option is truthy when present and nonempty, a number option
  when present and nonzero.
-/

/-- JavaScript `ToInt32`: reduce an integer to the range `[-2^31, 2^31)`. -/
def jsToInt32 (n : Int) : Int :=
  let m := n % 4294967296
  if m < 2147483648 then m else m - 4294967296

/-- One step of the rolling hash used by the adapter: JS
`acc = ((acc << 5) - acc) + char.charCodeAt(0); return acc & acc`.
`acc << 5` coerces to int32 before and after the shift, and `acc & acc`
is `ToInt32(acc)`. -/
def hashStep (acc : Int) (c : Nat) : Int :=
  jsToInt32 (jsToInt32 (jsToInt32 acc * 32) - acc + (c : Int))

/-- The rolling hash of a list of characters (JS
JS reduce over the characters, starting from 0). -/
def hashChars (l : List Char) : Int :=
  l.foldl (fun a c => hashStep a c.toNat) 0

/-- JS string split on the slash character, over the character list. -/
def splitSlash : List Char → List (List Char)
  | [] => [[]]
  | c :: rest =>
    match splitSlash rest with
    | [] => [[]]
    | seg :: segs => if c = '/' then [] :: seg :: segs else (c :: seg) :: segs

/-- The rkey of a URI: in JS, the last slash-separated segment when the
uri is truthy, and the empty string otherwise. -/
def rkeyOf (uri : String) : List Char :=
  if uri.data = [] then [] else (splitSlash uri.data).getLastD []

/-- The handle derivation of the adapter (`#mapPostToPostView` and its inline
copies): hash the last path segment of the uri with the rolling hash,
take `Math.abs`; an empty rkey yields 0 (JS `rkey ? ... : 0`). -/
def deriveHandle (uri : String) : Nat :=
  if rkeyOf uri = [] then 0 else (hashChars (rkeyOf uri)).natAbs

/-- `jsToInt32` always lands in the signed 32-bit range. -/
theorem jsToInt32_range (n : Int) :
    -2147483648 ≤ jsToInt32 n ∧ jsToInt32 n < 2147483648 := by
  unfold jsToInt32
  have hpos : (0 : Int) < 4294967296 := by norm_num
  have h0 : 0 ≤ n % 4294967296 := Int.emod_nonneg n (by norm_num)
  have h1 : n % 4294967296 < 4294967296 := Int.emod_lt_of_pos n hpos
  by_cases h : n % 4294967296 < 2147483648 <;> simp [h] <;> omega

/-- The rolling hash always lands in the signed 32-bit range. -/
theorem hashChars_range (l : List Char) :
    -2147483648 ≤ hashChars l ∧ hashChars l < 2147483648 := by
  unfold hashChars
  induction l using List.reverseRecOn with
  | nil => simp
  | append_singleton xs x _ =>
    rw [List.foldl_append, List.foldl_cons, List.foldl_nil]
    exact jsToInt32_range _

/-- The derived handle is at most `2 ^ 31`. -/
theorem deriveHandle_le (uri : String) : deriveHandle uri ≤ 2 ^ 31 := by
  unfold deriveHandle
  split
  · norm_num
  · have h := hashChars_range (rkeyOf uri)
    omega

/-- A remote content reference as stored in the adapter caches:
`{ uri, cid, likeUri? }`. -/
structure CachedRef where
  uri : String
  cid : String
  likeUri : Option String
deriving DecidableEq, Repr

/-- A handle-to-reference cache (`#postCache` / `#commentCache`), modelled
extensionally as a partial map from numeric handles. -/
def Cache : Type := Nat → Option CachedRef

/-- The empty cache (`new Map()`). -/
def emptyCache : Cache := fun _ => none

/-- JS `Map.set`. -/
def cacheSet (c : Cache) (k : Nat) (v : CachedRef) : Cache :=
  fun k2 => if k2 = k then some v else c k2

/-- JS `Map.delete`. -/
def cacheDelete (c : Cache) (k : Nat) : Cache :=
  fun k2 => if k2 = k then none else c k2

/-- The resolve operation of the spec: JS `Map.get`. -/
def resolve (c : Cache) (h : Nat) : Option CachedRef := c h

/-- JS truthiness of an optional string (`if (s)`): present and nonempty. -/
def strTruthy : Option String → Bool
  | none => false
  | some s => !(s = "")

/-- JS truthiness of an optional number (`if (n)`): present and nonzero. -/
def natTruthy : Option Nat → Bool
  | none => false
  | some n => !(n = 0)

/-- A remote post or comment as seen from the agent: the fields of
`item.post` the adapter reads (`uri`, `cid`, `viewer?.like`). -/
structure BskyPost where
  uri : String
  cid : String
  viewerLike : Option String
deriving DecidableEq, Repr

/-- The usability guard of the timeline re-derivation in `likePost`:
JS `foundPost && foundPost.post.uri && foundPost.post.cid`. -/
def usablePost (p : BskyPost) : Bool :=
  !(p.uri = "") && !(p.cid = "")

/-- The caching side of `#mapPostToPostView`: when the post has a truthy
uri and cid, store `{ uri, cid, likeUri: viewer?.like }` under the handle
derived from the uri. This is the observe operation of the spec. -/
def observePost (c : Cache) (p : BskyPost) : Cache :=
  if usablePost p then
    cacheSet c (deriveHandle p.uri) ⟨p.uri, p.cid, p.viewerLike⟩
  else c

/-- The like-marker update of the `score === 1` branch of `likePost` /
`likeComment`: on a cached entry, store the like record uri. -/
def likeMark (c : Cache) (h : Nat) (likeRecUri : String) : Cache :=
  match c h with
  | some r => cacheSet c h ⟨r.uri, r.cid, some likeRecUri⟩
  | none => c

/-- The like-marker update of the `score === -1` branch of `likePost` /
`likeComment`: on a cached entry whose stored marker is truthy, clear it;
otherwise do nothing. -/
def unlikeMark (c : Cache) (h : Nat) : Cache :=
  match c h with
  | some r => if strTruthy r.likeUri then cacheSet c h ⟨r.uri, r.cid, none⟩ else c
  | none => c

/-- The cache mutations the adapter performs during a session. -/
inductive CacheOp where
  | observe (p : BskyPost)
  | invalidate (h : Nat)
  | like (h : Nat) (u : String)
  | unlike (h : Nat)

/-- Apply one cache mutation. -/
def applyOp (c : Cache) : CacheOp → Cache
  | .observe p => observePost c p
  | .invalidate h => cacheDelete c h
  | .like h u => likeMark c h u
  | .unlike h => unlikeMark c h

/-- Apply a sequence of cache mutations in order. -/
def applyOps (ops : List CacheOp) (c : Cache) : Cache :=
  ops.foldl applyOp c

/-- Whether an operation observes a reference under handle `h`. -/
def observesHandle (h : Nat) : CacheOp → Bool
  | .observe p => deriveHandle p.uri = h
  | _ => false

/-- `h` is never observed across the sequence of mutations. -/
def neverObserved (h : Nat) (ops : List CacheOp) : Bool :=
  ops.all (fun o => !(observesHandle h o))

/-- A mutation that does not observe `h` cannot create an entry for `h`. -/
theorem applyOp_preserves_absent (c : Cache) (op : CacheOp) (h : Nat)
    (hc : c h = none) (hno : observesHandle h op = false) :
    applyOp c op h = none := by
  cases op with
  | observe p =>
    simp only [observesHandle, decide_eq_false_iff_not] at hno
    simp only [applyOp, observePost]
    by_cases hu : usablePost p = true
    · rw [if_pos hu]
      unfold cacheSet
      by_cases he : h = deriveHandle p.uri
      · exact absurd he.symm hno
      · simp [he, hc]
    · rw [if_neg hu]
      exact hc
  | invalidate h2 =>
    simp only [applyOp, cacheDelete]
    by_cases he : h = h2 <;> simp [he, hc]
  | like h2 u =>
    simp only [applyOp, likeMark]
    cases hr : c h2 with
    | none => exact hc
    | some r =>
      show cacheSet c h2 ⟨r.uri, r.cid, some u⟩ h = none
      unfold cacheSet
      by_cases he : h = h2
      · rw [he] at hc; rw [hc] at hr; cases hr
      · simp [he, hc]
  | unlike h2 =>
    simp only [applyOp, unlikeMark]
    cases hr : c h2 with
    | none => exact hc
    | some r =>
      show (if strTruthy r.likeUri = true then
              cacheSet c h2 ⟨r.uri, r.cid, none⟩ else c) h = none
      by_cases ht : strTruthy r.likeUri = true
      · rw [if_pos ht]
        unfold cacheSet
        by_cases he : h = h2
        · rw [he] at hc; rw [hc] at hr; cases hr
        · simp [he, hc]
      · rw [if_neg ht]
        exact hc

/-- A sequence of mutations never observing `h` cannot create an entry
for `h`. -/
theorem applyOps_preserves_absent (ops : List CacheOp) (c : Cache) (h : Nat)
    (hc : c h = none) (hno : neverObserved h ops = true) :
    applyOps ops c h = none := by
  induction ops generalizing c with
  | nil => exact hc
  | cons op rest ih =>
    simp only [neverObserved, List.all_cons, Bool.and_eq_true, Bool.not_eq_true'] at hno
    exact ih (applyOp c op)
      (applyOp_preserves_absent c op h hc hno.1)
      (by simpa [neverObserved] using hno.2)

/-- The error kinds of the adapter (spec section 7). Every throw site uses a
plain `Error` with a message; the constructor records which kind of site
threw: `notFound` for cache misses, `unsupported` for permanent capability
gaps, `unauthenticated` for the missing-credentials throw in `#ensureAuth`,
and `remote` for a rejected remote-API call propagated unchanged. -/
inductive AdapterError where
  | notFound (msg : String)
  | unsupported (msg : String)
  | unauthenticated (msg : String)
  | remote (msg : String)
deriving DecidableEq, Repr

/-- The remote calls an operation can issue, in issue order. -/
inductive RemoteCall where
  | resumeSession
  | login
  | getTimeline
  | like (uri cid : String)
  | deleteLike (likeUri : String)
  | createRecord
  | getPostThread (uri : String)
  | countUnread
  | listNotifications
  | deletePostCall (uri : String)
deriving DecidableEq, Repr

/-- Calls issued by `#ensureAuth` (session resume / login) as opposed to
content calls. -/
def isAuthCall : RemoteCall → Bool
  | .resumeSession => true
  | .login => true
  | _ => false

/-- The three fields `#restoreSession` requires of a parsed session blob.
`JSON.parse` of the stored blob is modelled by its outcome: `none` for a
parse failure, `some fields` for a parsed object whose three named fields
may each be absent. -/
structure SessionFields where
  accessJwt : Option String
  refreshJwt : Option String
  did : Option String
deriving DecidableEq, Repr

/-- The mutable client state: the `#authenticated` flag, whether
`#agent.session` is set, the stored `#sessionData` blob (already parsed,
see `SessionFields`), whether `options.identifier`/`options.password` are
both present, and the two handle caches. -/
structure ClientState where
  authenticated : Bool
  hasSession : Bool
  sessionData : Option (Option SessionFields)
  hasCreds : Bool
  postCache : Cache
  commentCache : Cache

/-- A notification as seen from the agent: the fields `getPersonMentions`
and `getReplies` filter and hash on (`reason`, `uri`). -/
structure Notif where
  reason : String
  uri : String
deriving DecidableEq, Repr

/-- The remote agent as an oracle fixing the outcome of every remote call
(`BskyAgent` is an opaque capability provider; an `Except.error` models the
underlying promise rejecting). -/
structure Agent where
  resumeResult : Except String Unit
  loginResult : Except String Unit
  timeline : Except String (List BskyPost)
  likeResult : String → String → Except String String
  deleteLikeResult : String → Except String Unit
  createRecordResult : Except String String
  threadResult : String → Except String (List BskyPost)
  unreadResult : Except String Nat
  notifResult : Except String (List Notif)
  deletePostResult : String → Except String Unit

/-- The result of one adapter operation: the returned value or thrown
error, the client state afterwards, and the remote calls issued. -/
def OpResult (α : Type) : Type := Except AdapterError α × ClientState × List RemoteCall

/-- `#restoreSession(sessionData)`: a blob that fails to parse yields
`false` with no state change; a parsed blob missing a truthy `accessJwt`,
`refreshJwt` or `did` yields `false` with no state change; otherwise
`resumeSession` is attempted — on success the client is authenticated, on
rejection the catch clears `#authenticated` and yields `false`. -/
def restoreSession (w : Agent) (st : ClientState) (blob : Option SessionFields) :
    Bool × ClientState × List RemoteCall :=
  match blob with
  | none => (false, st, [])
  | some s =>
    if strTruthy s.accessJwt && strTruthy s.refreshJwt && strTruthy s.did then
      match w.resumeResult with
      | .ok _ => (true, { st with authenticated := true, hasSession := true }, [.resumeSession])
      | .error _ => (false, { st with authenticated := false }, [.resumeSession])
    else (false, st, [])

/-- The stored-credentials fallback at the end of `#ensureAuth`: log in when
an identifier and password are available, otherwise throw. -/
def tryCreds (w : Agent) (st : ClientState) (calls : List RemoteCall) :
    Except AdapterError Unit × ClientState × List RemoteCall :=
  if st.hasCreds then
    match w.loginResult with
    | .ok _ => (.ok (), { st with authenticated := true, hasSession := true }, calls ++ [.login])
    | .error e => (.error (.remote e), st, calls ++ [.login])
  else (.error (.unauthenticated "No Bluesky credentials available for authentication"),
        st, calls)

/-- The restore attempt inside `#ensureAuth`:
`const restored = await this.#restoreSession(this.#sessionData); if (restored) return`,
falling through to the stored-credentials branch on failure. -/
def ensureAuthRestore (w : Agent) (st : ClientState) (blob : Option SessionFields) :
    Except AdapterError Unit × ClientState × List RemoteCall :=
  if (restoreSession w st blob).1 then
    (.ok (), (restoreSession w st blob).2.1, (restoreSession w st blob).2.2)
  else
    tryCreds w (restoreSession w st blob).2.1 (restoreSession w st blob).2.2

/-- `#ensureAuth()`: an authenticated client with a live session passes
through; otherwise try restoring the stored session blob, then stored
credentials, then throw. -/
def ensureAuth (w : Agent) (st : ClientState) :
    Except AdapterError Unit × ClientState × List RemoteCall :=
  if st.authenticated && st.hasSession then (.ok (), st, [])
  else
    match st.sessionData, st.authenticated with
    | some blob, false => ensureAuthRestore w st blob
    | _, _ => tryCreds w st []

/-- On an authenticated client with a live session, `#ensureAuth` is a
silent no-op. -/
theorem ensureAuth_of_auth (w : Agent) (st : ClientState)
    (ha : st.authenticated = true) (hs : st.hasSession = true) :
    ensureAuth w st = (.ok (), st, []) := by
  unfold ensureAuth
  rw [ha, hs]
  rfl

/-- The post view returned to the UI. Of the Lemmy `PostView` object
literal, only `post.id` (the derived handle) is computed from the remote
post; the remaining fields are constants or verbatim copies no property
depends on, and are omitted. -/
structure PostView where
  id : Nat
deriving DecidableEq, Repr

/-- The comment view returned by `likeComment`: the computed fields
`counts.score` (`cached.likeUri ? 1 : 0`) and `my_vote`
(`cached.likeUri ? 1 : undefined`), plus the echoed id. -/
structure CommentRespView where
  id : Nat
  score : Nat
  myVote : Option Nat
deriving DecidableEq, Repr

/-- Build the `likeComment` response from the (possibly updated) cached
entry. -/
def commentRespOf (cid2 : Nat) (r : CachedRef) : CommentRespView :=
  ⟨cid2, if strTruthy r.likeUri then 1 else 0,
   if strTruthy r.likeUri then some 1 else none⟩

/-- The timeline search shared by `getPost` and `likePost`:
`feed.find(item => hashId(item.post.uri) === id)`. -/
def findByHash (feed : List BskyPost) (pid : Nat) : Option BskyPost :=
  feed.find? (fun p => deriveHandle p.uri = pid)

/-- `#mapPostToPostView(post)`: the returned view and the updated post
cache (the method stores `{ uri, cid, likeUri: viewer?.like }` under the
derived handle whenever uri and cid are truthy). -/
def mapPostToPostView (c : Cache) (p : BskyPost) : PostView × Cache :=
  (⟨deriveHandle p.uri⟩, observePost c p)

/-- `getPost(form)`: fetch the recent timeline and search it for a post
whose derived handle matches the requested id; a remote failure is
re-thrown by the catch, a miss throws a not-found error. -/
def getPost (w : Agent) (st : ClientState) (pid : Nat) : OpResult PostView :=
  match ensureAuth w st with
  | (.error e, st1, c1) => (.error e, st1, c1)
  | (.ok _, st1, c1) =>
    match w.timeline with
    | .error e => (.error (.remote e), st1, c1 ++ [.getTimeline])
    | .ok feed =>
      match findByHash feed pid with
      | none => (.error (.notFound "Post not found in recent timeline"), st1,
                 c1 ++ [.getTimeline])
      | some p =>
        let (view, pc) := mapPostToPostView st1.postCache p
        (.ok view, { st1 with postCache := pc }, c1 ++ [.getTimeline])

/-- The tail of `likePost`: `return await this.getPost({ id: form.post_id })`,
with the calls issued so far prepended. -/
def getPostAfter (w : Agent) (st : ClientState) (calls : List RemoteCall) (pid : Nat) :
    OpResult PostView :=
  match getPost w st pid with
  | (res, st2, c2) => (res, st2, calls ++ c2)

/-- The form of `likePost` / `likeComment`: the handle and the vote score. -/
structure LikeForm where
  id : Nat
  score : Int
deriving DecidableEq, Repr

/-- `likePost(form)`: resolve the handle in the post cache; when absent,
try to re-derive the reference by scanning the recent timeline (a failure
of that scan is caught and swallowed); when still absent, throw not-found.
Otherwise like or unlike remotely, update the stored like marker, and
return the refetched post. -/
def likePost (w : Agent) (st : ClientState) (form : LikeForm) : OpResult PostView :=
  match ensureAuth w st with
  | (.error e, st1, c1) => (.error e, st1, c1)
  | (.ok _, st1, c1) =>
    let step2 : Option CachedRef × ClientState × List RemoteCall :=
      match st1.postCache form.id with
      | some r => (some r, st1, c1)
      | none =>
        match w.timeline with
        | .error _ => (none, st1, c1 ++ [.getTimeline])
        | .ok feed =>
          match findByHash feed form.id with
          | some p =>
            if usablePost p then
              (some ⟨p.uri, p.cid, p.viewerLike⟩,
               { st1 with postCache :=
                  cacheSet st1.postCache form.id ⟨p.uri, p.cid, p.viewerLike⟩ },
               c1 ++ [.getTimeline])
            else (none, st1, c1 ++ [.getTimeline])
          | none => (none, st1, c1 ++ [.getTimeline])
    match step2 with
    | (none, st2, c2) =>
      (.error (.notFound "Post not found - it may be too old or from a different feed"),
       st2, c2)
    | (some r, st2, c2) =>
      if form.score = 1 then
        match w.likeResult r.uri r.cid with
        | .error e => (.error (.remote e), st2, c2 ++ [.like r.uri r.cid])
        | .ok lu =>
          getPostAfter w
            { st2 with postCache := cacheSet st2.postCache form.id ⟨r.uri, r.cid, some lu⟩ }
            (c2 ++ [.like r.uri r.cid]) form.id
      else if form.score = -1 then
        match r.likeUri with
        | some lu =>
          if lu = "" then getPostAfter w st2 c2 form.id
          else
            match w.deleteLikeResult lu with
            | .error e => (.error (.remote e), st2, c2 ++ [.deleteLike lu])
            | .ok _ =>
              getPostAfter w
                { st2 with postCache := cacheSet st2.postCache form.id ⟨r.uri, r.cid, none⟩ }
                (c2 ++ [.deleteLike lu]) form.id
        | none => getPostAfter w st2 c2 form.id
      else getPostAfter w st2 c2 form.id

/-- `likeComment(form)`: resolve the handle in the comment cache (absent
means an immediate not-found error); like or unlike remotely, update the
stored marker, and return a locally built comment view. -/
def likeComment (w : Agent) (st : ClientState) (form : LikeForm) :
    OpResult CommentRespView :=
  match ensureAuth w st with
  | (.error e, st1, c1) => (.error e, st1, c1)
  | (.ok _, st1, c1) =>
    match st1.commentCache form.id with
    | none => (.error (.notFound "Comment not found in cache - please refresh the page"),
               st1, c1)
    | some r =>
      if form.score = 1 then
        match w.likeResult r.uri r.cid with
        | .error e => (.error (.remote e), st1, c1 ++ [.like r.uri r.cid])
        | .ok lu =>
          (.ok (commentRespOf form.id ⟨r.uri, r.cid, some lu⟩),
           { st1 with commentCache := cacheSet st1.commentCache form.id ⟨r.uri, r.cid, some lu⟩ },
           c1 ++ [.like r.uri r.cid])
      else if form.score = -1 then
        match r.likeUri with
        | some lu =>
          if lu = "" then (.ok (commentRespOf form.id r), st1, c1)
          else
            match w.deleteLikeResult lu with
            | .error e => (.error (.remote e), st1, c1 ++ [.deleteLike lu])
            | .ok _ =>
              (.ok (commentRespOf form.id ⟨r.uri, r.cid, none⟩),
               { st1 with commentCache := cacheSet st1.commentCache form.id ⟨r.uri, r.cid, none⟩ },
               c1 ++ [.deleteLike lu])
        | none => (.ok (commentRespOf form.id r), st1, c1)
      else (.ok (commentRespOf form.id r), st1, c1)

/-- The form of `createComment`. -/
structure CreateComment where
  post_id : Nat
  parent_id : Option Nat
  content : String

/-- The id of the comment created by `createComment`, derived from the
uri of the created record. -/
structure CommentIdView where
  id : Nat
deriving DecidableEq, Repr

/-- `createComment(form)`: a truthy `parent_id` (reply to a comment) is
rejected with a throw before any content call; otherwise the parent post
must be cached, and the reply record is created remotely. The new comment
is not added to the comment cache. -/
def createComment (w : Agent) (st : ClientState) (form : CreateComment) :
    OpResult CommentIdView :=
  match ensureAuth w st with
  | (.error e, st1, c1) => (.error e, st1, c1)
  | (.ok _, st1, c1) =>
    if natTruthy form.parent_id then
      (.error (.unsupported
        "Replying to comments not yet fully supported - please reply to the main post"),
       st1, c1)
    else
      match st1.postCache form.post_id with
      | none => (.error (.notFound "Post not found in cache - please refresh the page"),
                 st1, c1)
      | some _ =>
        match w.createRecordResult with
        | .error e => (.error (.remote e), st1, c1 ++ [.createRecord])
        | .ok uri => (.ok ⟨deriveHandle uri⟩, st1, c1 ++ [.createRecord])

/-- `deletePost(form)`: resolve the handle in the post cache (absent means
a not-found error); delete the record remotely, and only on success remove
the cache entry. -/
def deletePost (w : Agent) (st : ClientState) (pid : Nat) : OpResult PostView :=
  match ensureAuth w st with
  | (.error e, st1, c1) => (.error e, st1, c1)
  | (.ok _, st1, c1) =>
    match st1.postCache pid with
    | none => (.error (.notFound "Post not found in cache - please refresh the page"),
               st1, c1)
    | some r =>
      match w.deletePostResult r.uri with
      | .error e => (.error (.remote e), st1, c1 ++ [.deletePostCall r.uri])
      | .ok _ =>
        (.ok ⟨pid⟩, { st1 with postCache := cacheDelete st1.postCache pid },
         c1 ++ [.deletePostCall r.uri])

/-- The `getUnreadCount` response (`replies`, `mentions`,
`private_messages`). -/
structure UnreadCounts where
  replies : Nat
  mentions : Nat
  privateMessages : Nat
deriving DecidableEq, Repr

/-- `getUnreadCount()`: a failure of `countUnreadNotifications` is caught
and converted into a successful all-zero response. -/
def getUnreadCount (w : Agent) (st : ClientState) : OpResult UnreadCounts :=
  match ensureAuth w st with
  | (.error e, st1, c1) => (.error e, st1, c1)
  | (.ok _, st1, c1) =>
    match w.unreadResult with
    | .ok n => (.ok ⟨n, 0, 0⟩, st1, c1 ++ [.countUnread])
    | .error _ => (.ok ⟨0, 0, 0⟩, st1, c1 ++ [.countUnread])

/-- One level of `#mapThreadToComments`: the comment id of each reply is
the derived handle of its uri, falling back to the index of the reply
when the uri
has no rkey; replies with truthy uri and cid are stored in the comment
cache. (Deeper levels of the reply tree recurse identically and are not
needed by any property.) -/
def mapReplies (cache : Cache) (replies : List BskyPost) : List Nat × Cache :=
  replies.enum.foldl
    (fun acc ip =>
      let cid2 := if rkeyOf ip.2.uri = [] then ip.1 else (hashChars (rkeyOf ip.2.uri)).natAbs
      let cache2 := if !(ip.2.uri = "") && !(ip.2.cid = "") then
          cacheSet acc.2 cid2 ⟨ip.2.uri, ip.2.cid, ip.2.viewerLike⟩
        else acc.2
      (acc.1 ++ [cid2], cache2))
    ([], cache)

/-- `getComments(form)`: an uncached post yields a successful empty list;
a failure of the thread fetch is caught and converted into a successful
empty list; otherwise the replies are mapped and cached. -/
def getComments (w : Agent) (st : ClientState) (pid : Nat) : OpResult (List Nat) :=
  match ensureAuth w st with
  | (.error e, st1, c1) => (.error e, st1, c1)
  | (.ok _, st1, c1) =>
    match st1.postCache pid with
    | none => (.ok [], st1, c1)
    | some r =>
      match w.threadResult r.uri with
      | .error _ => (.ok [], st1, c1 ++ [.getPostThread r.uri])
      | .ok replies =>
        let (ids, cc) := mapReplies st1.commentCache replies
        (.ok ids, { st1 with commentCache := cc }, c1 ++ [.getPostThread r.uri])

/-- `getPersonMentions(form)`: list notifications, keep mentions and
replies, and return their derived ids; a remote failure is caught and
converted into a successful empty list. -/
def getPersonMentions (w : Agent) (st : ClientState) : OpResult (List Nat) :=
  match ensureAuth w st with
  | (.error e, st1, c1) => (.error e, st1, c1)
  | (.ok _, st1, c1) =>
    match w.notifResult with
    | .error _ => (.ok [], st1, c1 ++ [.listNotifications])
    | .ok ns =>
      (.ok ((ns.filter (fun n => n.reason = "mention" || n.reason = "reply")).map
        (fun n => deriveHandle n.uri)), st1, c1 ++ [.listNotifications])

/-- `getReplies(form)`: like `getPersonMentions` but keeping only replies;
a remote failure is caught and converted into a successful empty list. -/
def getReplies (w : Agent) (st : ClientState) : OpResult (List Nat) :=
  match ensureAuth w st with
  | (.error e, st1, c1) => (.error e, st1, c1)
  | (.ok _, st1, c1) =>
    match w.notifResult with
    | .error _ => (.ok [], st1, c1 ++ [.listNotifications])
    | .ok ns =>
      (.ok ((ns.filter (fun n => n.reason = "reply")).map
        (fun n => deriveHandle n.uri)), st1, c1 ++ [.listNotifications])

/-- `editPost`: unsupported, throws before any remote call. -/
def editPost (st : ClientState) : OpResult Unit :=
  (.error (.unsupported "Bluesky does not support post editing in the same way"), st, [])

/-- `editComment`: unsupported, throws before any remote call. -/
def editComment (st : ClientState) : OpResult Unit :=
  (.error (.unsupported "Bluesky does not support comment editing"), st, [])

/-- `createCommunity`: unsupported, throws before any remote call. -/
def createCommunity (st : ClientState) : OpResult Unit :=
  (.error (.unsupported "Bluesky does not have communities"), st, [])

/-- `followCommunity`: unsupported, throws before any remote call. -/
def followCommunity (st : ClientState) : OpResult Unit :=
  (.error (.unsupported "Bluesky does not have communities"), st, [])

/-- `lockPost`: unsupported, throws before any remote call. -/
def lockPost (st : ClientState) : OpResult Unit :=
  (.error (.unsupported "Bluesky does not support locking posts"), st, [])

/-- `removePost`: unsupported, throws before any remote call. -/
def removePost (st : ClientState) : OpResult Unit :=
  (.error (.unsupported "Bluesky does not have moderation removal"), st, [])

/-- `generateTotpSecret`: unsupported, throws before any remote call. -/
def generateTotpSecret (st : ClientState) : OpResult Unit :=
  (.error (.unsupported "Bluesky does not support TOTP"), st, [])

/-- Whether the timeline scan in `likePost` can produce a usable reference
for the given id: the timeline fetch succeeds, the search finds a post,
and that post has a truthy uri and cid. -/
def timelineHasUsable (w : Agent) (pid : Nat) : Bool :=
  match w.timeline with
  | .error _ => false
  | .ok feed =>
    match findByHash feed pid with
    | none => false
    | some p => usablePost p

/-- Whether a parsed session blob satisfies the field check of
`#restoreSession`: parsed, with truthy `accessJwt`, `refreshJwt` and `did`. -/
def goodBlob : Option SessionFields → Bool
  | none => false
  | some s => strTruthy s.accessJwt && strTruthy s.refreshJwt && strTruthy s.did

/-- Observing a post whose handle differs from `h` does not change the
entry at `h`. -/
theorem observePost_preserves (c : Cache) (q : BskyPost) (h : Nat)
    (hne : deriveHandle q.uri ≠ h) : observePost c q h = c h := by
  unfold observePost
  by_cases hu : usablePost q = true
  · rw [if_pos hu]
    unfold cacheSet
    exact if_neg (fun he => hne he.symm)
  · rw [if_neg hu]

/-- `#restoreSession` never touches the handle caches, and only issues
auth calls. -/
theorem restoreSession_frame (w : Agent) (st : ClientState) (blob : Option SessionFields) :
    (restoreSession w st blob).2.1.postCache = st.postCache ∧
    (restoreSession w st blob).2.1.commentCache = st.commentCache ∧
    (restoreSession w st blob).2.2.all isAuthCall = true := by
  unfold restoreSession
  split
  · exact ⟨rfl, rfl, rfl⟩
  · split
    · split <;> exact ⟨rfl, rfl, rfl⟩
    · exact ⟨rfl, rfl, rfl⟩

/-- The credentials fallback never touches the handle caches, and only
adds auth calls to the trace. -/
theorem tryCreds_frame (w : Agent) (st : ClientState) (calls : List RemoteCall)
    (hall : calls.all isAuthCall = true) :
    (tryCreds w st calls).2.1.postCache = st.postCache ∧
    (tryCreds w st calls).2.1.commentCache = st.commentCache ∧
    (tryCreds w st calls).2.2.all isAuthCall = true := by
  unfold tryCreds
  by_cases hc : st.hasCreds = true
  · rw [if_pos hc]
    cases w.loginResult <;> exact ⟨rfl, rfl, by simp [hall, isAuthCall]⟩
  · rw [if_neg hc]
    exact ⟨rfl, rfl, hall⟩

/-- The restore attempt never touches the handle caches, and only issues
auth calls. -/
theorem ensureAuthRestore_frame (w : Agent) (st : ClientState) (blob : Option SessionFields) :
    (ensureAuthRestore w st blob).2.1.postCache = st.postCache ∧
    (ensureAuthRestore w st blob).2.1.commentCache = st.commentCache ∧
    (ensureAuthRestore w st blob).2.2.all isAuthCall = true := by
  have hF := restoreSession_frame w st blob
  unfold ensureAuthRestore
  by_cases hb : (restoreSession w st blob).1 = true
  · rw [if_pos hb]
    exact hF
  · rw [if_neg hb]
    have hT := tryCreds_frame w (restoreSession w st blob).2.1
      (restoreSession w st blob).2.2 hF.2.2
    exact ⟨hT.1.trans hF.1, hT.2.1.trans hF.2.1, hT.2.2⟩

/-- `#ensureAuth` never touches the handle caches, and only issues auth
calls. -/
theorem ensureAuth_frame (w : Agent) (st : ClientState) :
    (ensureAuth w st).2.1.postCache = st.postCache ∧
    (ensureAuth w st).2.1.commentCache = st.commentCache ∧
    (ensureAuth w st).2.2.all isAuthCall = true := by
  unfold ensureAuth
  by_cases hq : (st.authenticated && st.hasSession) = true
  · rw [if_pos hq]
    exact ⟨rfl, rfl, rfl⟩
  · rw [if_neg hq]
    cases hsd : st.sessionData with
    | none => exact tryCreds_frame w st [] rfl
    | some blob =>
      cases hau : st.authenticated with
      | true => exact tryCreds_frame w st [] rfl
      | false => exact ensureAuthRestore_frame w st blob

set_option maxRecDepth 8000

/-- C3: the handle derivation is a pure function of the uri — calling it
twice on the same uri yields the same value — and its result is a
non-negative integer at most `2 ^ 31` (so it fits in 32 bits unsigned,
though not always in the signed 32-bit range the data model names; see the
counterexample). -/
theorem deriveHandle_deterministic_bounded (uri : String) :
    deriveHandle uri = deriveHandle uri ∧ deriveHandle uri ≤ 2 ^ 31 :=
  ⟨rfl, deriveHandle_le uri⟩

/-- C3 counterexample: a uri whose rkey drives the rolling hash to exactly
`-2 ^ 31`, so `Math.abs` returns `2 ^ 31`, which exceeds the signed 32-bit
maximum `2 ^ 31 - 1` — the result is not always a (signed) 32-bit
integer. -/
theorem deriveHandle_exceeds_int32_max :
    deriveHandle "at://did:plc:abc/app.bsky.feed.post/polygenelubricants" = 2147483648 ∧
    ¬(deriveHandle "at://did:plc:abc/app.bsky.feed.post/polygenelubricants" < 2 ^ 31) := by
  have he : deriveHandle "at://did:plc:abc/app.bsky.feed.post/polygenelubricants"
      = 2147483648 := rfl
  refine ⟨he, ?_⟩
  rw [he]
  decide

/-- Observing a sequence of posts none of whose handles is `h` leaves the
entry at `h` unchanged. -/
theorem foldl_observePost_preserves (ps : List BskyPost) (h : Nat) :
    ∀ c : Cache, (∀ q ∈ ps, deriveHandle q.uri ≠ h) → (ps.foldl observePost c) h = c h := by
  induction ps with
  | nil =>
    intro c _
    rfl
  | cons q qs ih =>
    intro c hcol
    rw [List.foldl_cons]
    rw [ih (observePost c q) (fun q2 hq2 => hcol q2 (List.mem_cons_of_mem q hq2))]
    exact observePost_preserves c q h (hcol q (List.mem_cons_self q qs))

/-- C4: observing a reference with a truthy uri and cid, then resolving
the handle derived from that uri, returns exactly the stored reference,
as long as every reference observed in between has a non-colliding
handle. -/
theorem observe_resolve_roundtrip (c : Cache) (p : BskyPost) (ps : List BskyPost)
    (hu : p.uri ≠ "") (hc : p.cid ≠ "")
    (hcol : ∀ q ∈ ps, deriveHandle q.uri ≠ deriveHandle p.uri) :
    resolve (ps.foldl observePost (observePost c p)) (deriveHandle p.uri) =
      some ⟨p.uri, p.cid, p.viewerLike⟩ := by
  have hbase : observePost c p (deriveHandle p.uri) = some ⟨p.uri, p.cid, p.viewerLike⟩ := by
    unfold observePost
    have hup : usablePost p = true := by
      unfold usablePost
      simp [hu, hc]
    rw [if_pos hup]
    unfold cacheSet
    simp
  rw [resolve, foldl_observePost_preserves ps (deriveHandle p.uri) (observePost c p) hcol]
  exact hbase

/-- C4 witness: a concrete round trip through an intervening observe of a
reference with a different handle. -/
theorem observe_resolve_roundtrip_witness :
    resolve ([(⟨"at://did:plc:xyz/app.bsky.feed.post/3k2y", "cid2", some "at://like/9"⟩ : BskyPost)].foldl
        observePost
        (observePost emptyCache ⟨"at://did:plc:abc/app.bsky.feed.post/3k2x", "cid1", none⟩))
      (deriveHandle "at://did:plc:abc/app.bsky.feed.post/3k2x") =
      some ⟨"at://did:plc:abc/app.bsky.feed.post/3k2x", "cid1", none⟩ :=
  observe_resolve_roundtrip emptyCache
    ⟨"at://did:plc:abc/app.bsky.feed.post/3k2x", "cid1", none⟩
    [⟨"at://did:plc:xyz/app.bsky.feed.post/3k2y", "cid2", some "at://like/9"⟩]
    (by decide) (by decide) (by decide)

/-- C5: resolving a handle after invalidating it returns nothing as long as
the handle is not re-observed in between; resolving a handle never
observed since session start (the empty cache) returns nothing; and a
successful `deletePost` leaves the deleted handle unresolvable. -/
theorem resolve_after_invalidate_or_never_observed
    (ops : List CacheOp) (c : Cache) (h : Nat)
    (hno : neverObserved h ops = true) :
    resolve (applyOps ops (cacheDelete c h)) h = none ∧
    resolve (applyOps ops emptyCache) h = none ∧
    (∀ (w : Agent) (st : ClientState) (pid : Nat) (v : PostView),
      (deletePost w st pid).1 = .ok v → (deletePost w st pid).2.1.postCache pid = none) := by
  refine ⟨?_, ?_, ?_⟩
  · exact applyOps_preserves_absent ops (cacheDelete c h) h (by simp [cacheDelete]) hno
  · exact applyOps_preserves_absent ops emptyCache h rfl hno
  · intro w st pid v hok
    rcases hE : ensureAuth w st with ⟨res, st1, c1⟩
    unfold deletePost at hok ⊢
    rw [hE] at hok ⊢
    cases res with
    | error e => simp at hok
    | ok u =>
      cases hpc : st1.postCache pid with
      | none => simp [hpc] at hok
      | some r =>
        simp only [hpc] at hok ⊢
        cases hdel : w.deletePostResult r.uri with
        | error e => simp [hdel] at hok
        | ok u2 => simp [hdel, cacheDelete]

/-- C5 witness: a concrete invalidated handle stays unresolvable across
observes of other posts, likes and unlikes, and a fresh session resolves
nothing. -/
theorem resolve_after_invalidate_witness :
    resolve (applyOps
      [.observe ⟨"at://did:plc:xyz/app.bsky.feed.post/3k2y", "cid2", none⟩,
       .like 77 "at://like/3", .unlike 77, .invalidate 99]
      (cacheDelete (fun _ => some ⟨"u", "c", none⟩) 77)) 77 = none ∧
    resolve (applyOps
      [.observe ⟨"at://did:plc:xyz/app.bsky.feed.post/3k2y", "cid2", none⟩,
       .like 77 "at://like/3", .unlike 77, .invalidate 99]
      emptyCache) 77 = none ∧
    (∀ (w : Agent) (st : ClientState) (pid : Nat) (v : PostView),
      (deletePost w st pid).1 = .ok v → (deletePost w st pid).2.1.postCache pid = none) :=
  resolve_after_invalidate_or_never_observed
    [.observe ⟨"at://did:plc:xyz/app.bsky.feed.post/3k2y", "cid2", none⟩,
     .like 77 "at://like/3", .unlike 77, .invalidate 99]
    (fun _ => some ⟨"u", "c", none⟩) 77 (by decide)

/-- C6: on a cached entry, storing a like marker and then clearing it
leaves the uri and cid of the entry unchanged through both steps, with the
marker present in between and cleared at the end. -/
theorem setLike_toggle_preserves_ref (c : Cache) (h : Nat) (r : CachedRef) (u : String)
    (hc : c h = some r) (hu : u ≠ "") :
    likeMark c h u h = some ⟨r.uri, r.cid, some u⟩ ∧
    unlikeMark (likeMark c h u) h h = some ⟨r.uri, r.cid, none⟩ := by
  have h1 : likeMark c h u h = some ⟨r.uri, r.cid, some u⟩ := by
    unfold likeMark
    simp only [hc]
    simp [cacheSet]
  refine ⟨h1, ?_⟩
  unfold unlikeMark
  simp only [h1]
  have ht : strTruthy (some u) = true := by
    simp [strTruthy, hu]
  rw [if_pos ht]
  simp [cacheSet]

/-- C6 witness: a concrete like/unlike toggle on a cached entry. -/
theorem setLike_toggle_witness :
    likeMark (fun k => if k = 5 then some ⟨"at://p", "c9", none⟩ else none) 5 "at://like/1" 5 =
      some ⟨"at://p", "c9", some "at://like/1"⟩ ∧
    unlikeMark (likeMark (fun k => if k = 5 then some ⟨"at://p", "c9", none⟩ else none) 5
        "at://like/1") 5 5 = some ⟨"at://p", "c9", none⟩ :=
  setLike_toggle_preserves_ref (fun k => if k = 5 then some ⟨"at://p", "c9", none⟩ else none)
    5 ⟨"at://p", "c9", none⟩ "at://like/1" (by decide) (by decide)

/-- C7: every unsupported operation throws immediately: an `unsupported`
error with the message from the source, no remote call, and a client state
untouched in every component (caches and authentication state alike). -/
theorem unsupported_ops_throw_immediately (st : ClientState) :
    editPost st = (.error (.unsupported "Bluesky does not support post editing in the same way"), st, []) ∧
    editComment st = (.error (.unsupported "Bluesky does not support comment editing"), st, []) ∧
    createCommunity st = (.error (.unsupported "Bluesky does not have communities"), st, []) ∧
    followCommunity st = (.error (.unsupported "Bluesky does not have communities"), st, []) ∧
    lockPost st = (.error (.unsupported "Bluesky does not support locking posts"), st, []) ∧
    removePost st = (.error (.unsupported "Bluesky does not have moderation removal"), st, []) ∧
    generateTotpSecret st = (.error (.unsupported "Bluesky does not support TOTP"), st, []) :=
  ⟨rfl, rfl, rfl, rfl, rfl, rfl, rfl⟩

/-- C8: session restoration fails — returning `false` and leaving the
whole client state (in particular the authenticated flag) unchanged —
whenever the stored blob does not parse as JSON or lacks a truthy
`accessJwt`, `refreshJwt` or `did`; contrapositively, a restore can only
succeed on a parsed blob carrying all three fields. -/
theorem restore_fails_on_bad_blob (w : Agent) (st : ClientState)
    (blob : Option SessionFields) (hb : goodBlob blob = false) :
    (restoreSession w st blob).1 = false ∧
    (restoreSession w st blob).2.1 = st ∧
    (restoreSession w st blob).2.1.authenticated = st.authenticated := by
  cases blob with
  | none => exact ⟨rfl, rfl, rfl⟩
  | some s =>
    simp only [goodBlob] at hb
    unfold restoreSession
    simp only [hb]
    exact ⟨rfl, rfl, rfl⟩

/-- C8 witness: a blob parsed from valid JSON but missing `refreshJwt`
fails to restore and leaves the state untouched. -/
theorem restore_fails_on_bad_blob_witness :
    (restoreSession
      ⟨.ok (), .ok (), .ok [], fun _ _ => .ok "", fun _ => .ok (), .ok "", fun _ => .ok [],
       .ok 0, .ok [], fun _ => .ok ()⟩
      ⟨false, false, some (some ⟨some "jwt-a", none, some "did:plc:abc"⟩), false,
       emptyCache, emptyCache⟩
      (some ⟨some "jwt-a", none, some "did:plc:abc"⟩)).1 = false ∧
    (restoreSession
      ⟨.ok (), .ok (), .ok [], fun _ _ => .ok "", fun _ => .ok (), .ok "", fun _ => .ok [],
       .ok 0, .ok [], fun _ => .ok ()⟩
      ⟨false, false, some (some ⟨some "jwt-a", none, some "did:plc:abc"⟩), false,
       emptyCache, emptyCache⟩
      (some ⟨some "jwt-a", none, some "did:plc:abc"⟩)).2.1 =
      ⟨false, false, some (some ⟨some "jwt-a", none, some "did:plc:abc"⟩), false,
       emptyCache, emptyCache⟩ ∧
    (restoreSession
      ⟨.ok (), .ok (), .ok [], fun _ _ => .ok "", fun _ => .ok (), .ok "", fun _ => .ok [],
       .ok 0, .ok [], fun _ => .ok ()⟩
      ⟨false, false, some (some ⟨some "jwt-a", none, some "did:plc:abc"⟩), false,
       emptyCache, emptyCache⟩
      (some ⟨some "jwt-a", none, some "did:plc:abc"⟩)).2.1.authenticated = false :=
  restore_fails_on_bad_blob
    ⟨.ok (), .ok (), .ok [], fun _ _ => .ok "", fun _ => .ok (), .ok "", fun _ => .ok [],
     .ok 0, .ok [], fun _ => .ok ()⟩
    ⟨false, false, some (some ⟨some "jwt-a", none, some "did:plc:abc"⟩), false,
     emptyCache, emptyCache⟩
    (some ⟨some "jwt-a", none, some "did:plc:abc"⟩) (by decide)

/-- An agent whose timeline contains one post, for exercising the timeline
re-derivation path of `likePost`. -/
def rederiveWorld : Agent :=
  ⟨.ok (), .ok (), .ok [⟨"at://did:plc:abc/app.bsky.feed.post/3k2x", "cid1", none⟩],
   fun _ _ => .ok "at://like/1", fun _ => .ok (), .ok "", fun _ => .ok [],
   .ok 0, .ok [], fun _ => .ok ()⟩

/-- An authenticated client with empty caches. -/
def freshClient : ClientState := ⟨true, true, none, false, emptyCache, emptyCache⟩

/-- C1 counterexample: `likePost` on a handle with no cache entry does
attempt to re-derive the reference — it scans the recent timeline — and
when the scan finds the post, the operation issues a remote like call and
succeeds instead of failing with a not-found error. -/
theorem likePost_uncached_rederives_and_likes :
    freshClient.postCache (deriveHandle "at://did:plc:abc/app.bsky.feed.post/3k2x") = none ∧
    (likePost rederiveWorld freshClient
        ⟨deriveHandle "at://did:plc:abc/app.bsky.feed.post/3k2x", 1⟩).1 =
      .ok ⟨deriveHandle "at://did:plc:abc/app.bsky.feed.post/3k2x"⟩ ∧
    (likePost rederiveWorld freshClient
        ⟨deriveHandle "at://did:plc:abc/app.bsky.feed.post/3k2x", 1⟩).2.2 =
      [.getTimeline, .like "at://did:plc:abc/app.bsky.feed.post/3k2x" "cid1", .getTimeline] :=
  ⟨rfl, rfl, rfl⟩

/-- C1 (amended): on an uncached handle, `likeComment` fails immediately
with the not-found error, no remote call issued; `likePost` first scans
the recent timeline trying to re-derive the reference, and when the scan
fails or does not yield a usable post — including when the timeline fetch
itself fails remotely — it fails with the not-found error, having issued
no like call and left the state unchanged. -/
theorem uncached_like_fails_not_found (w : Agent) (st : ClientState) (h : Nat) (s : Int)
    (ha : st.authenticated = true) (hs : st.hasSession = true)
    (hp : st.postCache h = none) (hcm : st.commentCache h = none)
    (ht : timelineHasUsable w h = false) :
    likePost w st ⟨h, s⟩ =
      (.error (.notFound "Post not found - it may be too old or from a different feed"),
       st, [.getTimeline]) ∧
    likeComment w st ⟨h, s⟩ =
      (.error (.notFound "Comment not found in cache - please refresh the page"), st, []) := by
  have hE := ensureAuth_of_auth w st ha hs
  constructor
  · unfold likePost
    rw [hE]
    unfold timelineHasUsable at ht
    cases hw : w.timeline with
    | error e => simp [hp]
    | ok feed =>
      rw [hw] at ht
      have ht2 : (match findByHash feed h with
                  | none => false
                  | some p => usablePost p) = false := ht
      cases hf : findByHash feed h with
      | none => simp [hp, hf]
      | some p =>
        rw [hf] at ht2
        have ht3 : usablePost p = false := ht2
        simp [hp, hf, ht3]
  · unfold likeComment
    rw [hE]
    simp [hcm]

/-- C1 witness: a concrete uncached handle with an empty timeline. -/
theorem uncached_like_fails_not_found_witness :
    likePost
        ⟨.ok (), .ok (), .ok [], fun _ _ => .ok "", fun _ => .ok (), .ok "", fun _ => .ok [],
         .ok 0, .ok [], fun _ => .ok ()⟩
        freshClient ⟨42, 1⟩ =
      (.error (.notFound "Post not found - it may be too old or from a different feed"),
       freshClient, [.getTimeline]) ∧
    likeComment
        ⟨.ok (), .ok (), .ok [], fun _ _ => .ok "", fun _ => .ok (), .ok "", fun _ => .ok [],
         .ok 0, .ok [], fun _ => .ok ()⟩
        freshClient ⟨42, 1⟩ =
      (.error (.notFound "Comment not found in cache - please refresh the page"),
       freshClient, []) :=
  uncached_like_fails_not_found
    ⟨.ok (), .ok (), .ok [], fun _ _ => .ok "", fun _ => .ok (), .ok "", fun _ => .ok [],
     .ok 0, .ok [], fun _ => .ok ()⟩
    freshClient 42 1 rfl rfl rfl rfl rfl

/-- A world in which every remote call rejects. -/
def failingWorld : Agent :=
  ⟨.error "network error", .error "network error", .error "network error",
   fun _ _ => .error "network error", fun _ => .error "network error",
   .error "network error", fun _ => .error "network error",
   .error "network error", .error "network error", fun _ => .error "network error"⟩

/-- An authenticated client with one cached post (handle 1) and one cached
comment (handle 2). -/
def twoEntryClient : ClientState :=
  ⟨true, true, none, false,
   (fun k => if k = 1 then some ⟨"at://p1", "pc1", none⟩ else none),
   (fun k => if k = 2 then some ⟨"at://c1", "cc1", none⟩ else none)⟩

/-- C2 counterexample: not every operation propagates remote failures —
`getUnreadCount` and `getComments` catch a rejected remote call and return
a successful zero/empty result instead of an error. -/
theorem remote_failure_swallowed :
    failingWorld.unreadResult = .error "network error" ∧
    getUnreadCount failingWorld twoEntryClient =
      (.ok ⟨0, 0, 0⟩, twoEntryClient, [.countUnread]) ∧
    failingWorld.threadResult "at://p1" = .error "network error" ∧
    getComments failingWorld twoEntryClient 1 =
      (.ok [], twoEntryClient, [.getPostThread "at://p1"]) :=
  ⟨rfl, rfl, rfl, rfl⟩

/-- C2 (amended): the cache-dependent write operations (`likeComment`,
`likePost` on a cached handle, `deletePost`, `createComment`) propagate a
rejected remote call directly to the caller as a terminal error, issuing
the failing call exactly once (no retry); but the notification and thread
read operations (`getUnreadCount`, `getComments`, `getPersonMentions`,
`getReplies`) catch the rejection and convert it into a successful
zero/empty response. -/
theorem remote_failure_propagation (w : Agent) (st : ClientState)
    (pid cid2 : Nat) (rp rc : CachedRef) (msg : String)
    (e1 e2 e3 e4 e5 e6 e7 : String)
    (ha : st.authenticated = true) (hs : st.hasSession = true)
    (hpc : st.postCache pid = some rp) (hcc : st.commentCache cid2 = some rc)
    (hl : w.likeResult rc.uri rc.cid = .error e1)
    (hlp : w.likeResult rp.uri rp.cid = .error e2)
    (hd : w.deletePostResult rp.uri = .error e3)
    (hcr : w.createRecordResult = .error e4)
    (hu : w.unreadResult = .error e5)
    (hth : w.threadResult rp.uri = .error e6)
    (hn : w.notifResult = .error e7) :
    likeComment w st ⟨cid2, 1⟩ = (.error (.remote e1), st, [.like rc.uri rc.cid]) ∧
    likePost w st ⟨pid, 1⟩ = (.error (.remote e2), st, [.like rp.uri rp.cid]) ∧
    deletePost w st pid = (.error (.remote e3), st, [.deletePostCall rp.uri]) ∧
    createComment w st ⟨pid, none, msg⟩ = (.error (.remote e4), st, [.createRecord]) ∧
    getUnreadCount w st = (.ok ⟨0, 0, 0⟩, st, [.countUnread]) ∧
    getComments w st pid = (.ok [], st, [.getPostThread rp.uri]) ∧
    getPersonMentions w st = (.ok [], st, [.listNotifications]) ∧
    getReplies w st = (.ok [], st, [.listNotifications]) := by
  have hE := ensureAuth_of_auth w st ha hs
  refine ⟨?_, ?_, ?_, ?_, ?_, ?_, ?_, ?_⟩
  · unfold likeComment
    rw [hE]
    simp [hcc, hl]
  · unfold likePost
    rw [hE]
    simp [hpc, hlp]
  · unfold deletePost
    rw [hE]
    simp [hpc, hd]
  · unfold createComment
    rw [hE]
    simp [natTruthy, hpc, hcr]
  · unfold getUnreadCount
    rw [hE]
    simp [hu]
  · unfold getComments
    rw [hE]
    simp [hpc, hth]
  · unfold getPersonMentions
    rw [hE]
    simp [hn]
  · unfold getReplies
    rw [hE]
    simp [hn]

/-- C2 witness: the propagation and catch behaviour at a concrete failing
world and a client with one cached post and one cached comment. -/
theorem remote_failure_propagation_witness :
    likeComment failingWorld twoEntryClient ⟨2, 1⟩ =
      (.error (.remote "network error"), twoEntryClient, [.like "at://c1" "cc1"]) ∧
    likePost failingWorld twoEntryClient ⟨1, 1⟩ =
      (.error (.remote "network error"), twoEntryClient, [.like "at://p1" "pc1"]) ∧
    deletePost failingWorld twoEntryClient 1 =
      (.error (.remote "network error"), twoEntryClient, [.deletePostCall "at://p1"]) ∧
    createComment failingWorld twoEntryClient ⟨1, none, "hello"⟩ =
      (.error (.remote "network error"), twoEntryClient, [.createRecord]) ∧
    getUnreadCount failingWorld twoEntryClient =
      (.ok ⟨0, 0, 0⟩, twoEntryClient, [.countUnread]) ∧
    getComments failingWorld twoEntryClient 1 =
      (.ok [], twoEntryClient, [.getPostThread "at://p1"]) ∧
    getPersonMentions failingWorld twoEntryClient =
      (.ok [], twoEntryClient, [.listNotifications]) ∧
    getReplies failingWorld twoEntryClient =
      (.ok [], twoEntryClient, [.listNotifications]) :=
  remote_failure_propagation failingWorld twoEntryClient 1 2
    ⟨"at://p1", "pc1", none⟩ ⟨"at://c1", "cc1", none⟩ "hello"
    "network error" "network error" "network error" "network error"
    "network error" "network error" "network error"
    rfl rfl rfl rfl rfl rfl rfl rfl rfl rfl rfl

/-- An unauthenticated client holding stored credentials and nothing
cached. -/
def credsClient : ClientState := ⟨false, false, none, true, emptyCache, emptyCache⟩

/-- C9 counterexample: `createComment` with a non-null `parent_id` runs
`#ensureAuth` first, so on an unauthenticated client with stored
credentials a remote login call is issued before the reply is rejected —
the operation does not throw before any remote call. -/
theorem createComment_reply_after_login_call :
    (createComment rederiveWorld credsClient ⟨1, some 5, "hi"⟩).2.2 = [RemoteCall.login] ∧
    (createComment rederiveWorld credsClient ⟨1, some 5, "hi"⟩).1 =
      .error (.unsupported
        "Replying to comments not yet fully supported - please reply to the main post") :=
  ⟨rfl, rfl⟩

/-- C9 (amended): `createComment` with a truthy `parent_id` never succeeds,
never mutates the post or comment caches, and issues no content remote
call — at most the session-resume or login calls of `#ensureAuth`; when
the client is already authenticated with a live session the rejection is
immediate, with no remote call at all. -/
theorem reply_to_comment_rejected (w : Agent) (st : ClientState) (form : CreateComment)
    (hp : natTruthy form.parent_id = true) :
    (∀ k, (createComment w st form).2.1.postCache k = st.postCache k) ∧
    (∀ k, (createComment w st form).2.1.commentCache k = st.commentCache k) ∧
    (createComment w st form).2.2.all isAuthCall = true ∧
    (∀ v, (createComment w st form).1 ≠ .ok v) ∧
    (st.authenticated = true → st.hasSession = true →
      createComment w st form =
        (.error (.unsupported
          "Replying to comments not yet fully supported - please reply to the main post"),
         st, [])) := by
  rcases hE : ensureAuth w st with ⟨res, st1, c1⟩
  have hF := ensureAuth_frame w st
  rw [hE] at hF
  cases res with
  | error e =>
    have hred : createComment w st form = (.error e, st1, c1) := by
      unfold createComment
      rw [hE]
    refine ⟨fun k => ?_, fun k => ?_, ?_, fun v => ?_, fun ha hs => ?_⟩
    · rw [hred]
      exact congrFun hF.1 k
    · rw [hred]
      exact congrFun hF.2.1 k
    · rw [hred]
      exact hF.2.2
    · rw [hred]
      exact fun hcon => Except.noConfusion hcon
    · rw [ensureAuth_of_auth w st ha hs] at hE
      simp at hE
  | ok u =>
    have hred : createComment w st form =
        (.error (.unsupported
          "Replying to comments not yet fully supported - please reply to the main post"),
         st1, c1) := by
      unfold createComment
      rw [hE]
      simp [hp]
    refine ⟨fun k => ?_, fun k => ?_, ?_, fun v => ?_, fun ha hs => ?_⟩
    · rw [hred]
      exact congrFun hF.1 k
    · rw [hred]
      exact congrFun hF.2.1 k
    · rw [hred]
      exact hF.2.2
    · rw [hred]
      exact fun hcon => Except.noConfusion hcon
    · rw [ensureAuth_of_auth w st ha hs] at hE
      simp only [Prod.mk.injEq] at hE
      rw [hred, ← hE.2.1, ← hE.2.2]

/-- C9 witness: a concrete reply-to-comment on an authenticated client is
rejected immediately with no call and untouched caches. -/
theorem reply_to_comment_rejected_witness :
    (∀ k, (createComment rederiveWorld freshClient ⟨1, some 5, "hi"⟩).2.1.postCache k =
      freshClient.postCache k) ∧
    (∀ k, (createComment rederiveWorld freshClient ⟨1, some 5, "hi"⟩).2.1.commentCache k =
      freshClient.commentCache k) ∧
    (createComment rederiveWorld freshClient ⟨1, some 5, "hi"⟩).2.2.all isAuthCall = true ∧
    (∀ v, (createComment rederiveWorld freshClient ⟨1, some 5, "hi"⟩).1 ≠ .ok v) ∧
    (freshClient.authenticated = true → freshClient.hasSession = true →
      createComment rederiveWorld freshClient ⟨1, some 5, "hi"⟩ =
        (.error (.unsupported
          "Replying to comments not yet fully supported - please reply to the main post"),
         freshClient, [])) :=
  reply_to_comment_rejected rederiveWorld freshClient ⟨1, some 5, "hi"⟩ (by decide)

/-- An agent whose timeline holds the post already liked remotely
(`viewer.like` set), for exercising the post-refresh path of `likePost`. -/
def likedWorld : Agent :=
  ⟨.ok (), .ok (), .ok [⟨"at://did:plc:abc/app.bsky.feed.post/3k2x", "cid1", some "at://like/x"⟩],
   fun _ _ => .ok "at://like/1", fun _ => .ok (), .ok "", fun _ => .ok [],
   .ok 0, .ok [], fun _ => .ok ()⟩

/-- An authenticated client whose post cache holds the handle of the
timeline post with no stored like marker. -/
def unmarkedPostClient : ClientState :=
  ⟨true, true, none, false,
   (fun k => if k = deriveHandle "at://did:plc:abc/app.bsky.feed.post/3k2x" then
      some ⟨"at://did:plc:abc/app.bsky.feed.post/3k2x", "cid1", none⟩ else none),
   emptyCache⟩

/-- C10 counterexample: clearing a like on a cached post with no stored
marker is not a whole-operation no-op for `likePost` — the trailing post
refresh re-observes the entry from the timeline, here bringing in a like
marker seen remotely, and a second clear then does issue a deleteLike
call, so clearing twice differs from clearing once. -/
theorem likePost_unlike_not_noop :
    unmarkedPostClient.postCache (deriveHandle "at://did:plc:abc/app.bsky.feed.post/3k2x") =
      some ⟨"at://did:plc:abc/app.bsky.feed.post/3k2x", "cid1", none⟩ ∧
    (likePost likedWorld unmarkedPostClient
        ⟨deriveHandle "at://did:plc:abc/app.bsky.feed.post/3k2x", -1⟩).2.1.postCache
      (deriveHandle "at://did:plc:abc/app.bsky.feed.post/3k2x") =
      some ⟨"at://did:plc:abc/app.bsky.feed.post/3k2x", "cid1", some "at://like/x"⟩ ∧
    (likePost likedWorld
        (likePost likedWorld unmarkedPostClient
          ⟨deriveHandle "at://did:plc:abc/app.bsky.feed.post/3k2x", -1⟩).2.1
        ⟨deriveHandle "at://did:plc:abc/app.bsky.feed.post/3k2x", -1⟩).2.2 =
      [.deleteLike "at://like/x", .getTimeline] :=
  ⟨rfl, rfl, rfl⟩

/-- C10 (amended): for `likeComment`, clearing a like on a cached entry
with no stored marker is a whole-operation no-op — it succeeds, issues no
remote call, and leaves the comment cache unchanged — so clearing twice
equals clearing once; and the shared unlike branch (`unlikeMark`) is a
no-op on any cache entry without a truthy marker. For `likePost` the
conclusion fails in general (see the counterexample) because of the
trailing timeline refresh. -/
theorem unlike_without_marker_noop (w : Agent) (st : ClientState) (cid2 : Nat) (r : CachedRef)
    (ha : st.authenticated = true) (hs : st.hasSession = true)
    (hc : st.commentCache cid2 = some r) (hm : strTruthy r.likeUri = false) :
    likeComment w st ⟨cid2, -1⟩ = (.ok (commentRespOf cid2 r), st, []) ∧
    likeComment w (likeComment w st ⟨cid2, -1⟩).2.1 ⟨cid2, -1⟩ =
      (.ok (commentRespOf cid2 r), st, []) ∧
    (∀ (c : Cache) (h : Nat) (r2 : CachedRef), c h = some r2 →
      strTruthy r2.likeUri = false → ∀ k, unlikeMark c h k = c k) := by
  have hE := ensureAuth_of_auth w st ha hs
  have hfst : likeComment w st ⟨cid2, -1⟩ = (.ok (commentRespOf cid2 r), st, []) := by
    unfold likeComment
    rw [hE]
    cases hml : r.likeUri with
    | none => simp [hc, hml]
    | some lu =>
      rw [hml] at hm
      simp only [strTruthy, Bool.not_eq_false'] at hm
      have hlu : lu = "" := of_decide_eq_true hm
      subst hlu
      simp [hc, hml]
  refine ⟨hfst, ?_, ?_⟩
  · rw [hfst]
    exact hfst
  · intro c h r2 hcr2 hm2 k
    unfold unlikeMark
    simp [hcr2, hm2]

/-- An authenticated client with one cached comment carrying no like
marker. -/
def unmarkedCommentClient : ClientState :=
  ⟨true, true, none, false, emptyCache,
   (fun k => if k = 3 then some ⟨"at://c2", "cc2", none⟩ else none)⟩

/-- C10 witness: the concrete no-op clear on a cached comment without a
marker. -/
theorem unlike_without_marker_noop_witness :
    likeComment rederiveWorld unmarkedCommentClient ⟨3, -1⟩ =
      (.ok (commentRespOf 3 ⟨"at://c2", "cc2", none⟩), unmarkedCommentClient, []) ∧
    likeComment rederiveWorld
        (likeComment rederiveWorld unmarkedCommentClient ⟨3, -1⟩).2.1 ⟨3, -1⟩ =
      (.ok (commentRespOf 3 ⟨"at://c2", "cc2", none⟩), unmarkedCommentClient, []) ∧
    (∀ (c : Cache) (h : Nat) (r2 : CachedRef), c h = some r2 →
      strTruthy r2.likeUri = false → ∀ k, unlikeMark c h k = c k) :=
  unlike_without_marker_noop rederiveWorld unmarkedCommentClient 3
    ⟨"at://c2", "cc2", none⟩ rfl rfl rfl rfl
